import Mathlib

/-!
Verification development for a browser-based, generative-model-backed photo
editor.  The client-side logic under scrutiny is:

* the response interpreter for the hosted inference endpoint
  (handleApiResponse in the service module);
* the data-URL decode routines (fileToPart, dataURLtoFile);
* the linear undo/redo history over image versions and the per-operation
  request handlers of the App component;
* the canvas geometry math of the expansion (outpainting) preprocessor.

Each definition is a shallow embedding of the corresponding TypeScript
function, translated statement by statement.  JavaScript numbers are
embedded as exact rationals (the values the claims exercise are exactly
representable doubles), array indices as integers, and thrown exceptions
as `Except` values.
-/

namespace PhotoEditor

/-! ## JavaScript-level primitives -/

/-- JavaScript `Math.round` on a nonnegative-range rational:
`Math.round x = ⌊x + 0.5⌋` (halves round up). -/
def jsRound (q : ℚ) : ℤ := ⌊q + 1 / 2⌋

/-- Truthiness of an optional JavaScript string: `undefined` and the empty
string are falsy. -/
def jsTruthyStr (o : Option String) : Bool :=
  match o with
  | some s => s ≠ ""
  | none => false

/-- JavaScript `a || fallback` for an optional string `a`: the fallback is
used when `a` is `undefined` or empty. -/
def jsOrElse (o : Option String) (fallback : String) : String :=
  match o with
  | some s => if s = "" then fallback else s
  | none => fallback

/-- JavaScript `Array.prototype.slice(0, stop)`: a negative `stop` counts
from the end of the array, and the effective index is clamped to
`[0, length]`. -/
def jsSliceTo {α : Type} (l : List α) (stop : ℤ) : List α :=
  let e : ℤ := if stop < 0 then max ((l.length : ℤ) + stop) 0 else min stop (l.length : ℤ)
  l.take e.toNat

/-! ## Gemini service: response shape and the response interpreter

The shapes mirror the optional fields the source dereferences with
optional chaining (`response.promptFeedback?.blockReason`,
`response.candidates?.[0]?.content?.parts`, ...). -/

structure InlineData where
  mimeType : String
  data : String
  deriving DecidableEq, Repr

/-- One part of a candidate's content; the source only inspects the
`inlineData` field's truthiness and payload. -/
structure ResponsePart where
  inlineData : Option InlineData
  text : Option String
  deriving DecidableEq, Repr

structure ContentData where
  parts : Option (List ResponsePart)
  deriving DecidableEq, Repr

structure Candidate where
  content : Option ContentData
  finishReason : Option String
  deriving DecidableEq, Repr

structure PromptFeedback where
  blockReason : Option String
  blockReasonMessage : Option String
  deriving DecidableEq, Repr

structure GenerateContentResponse where
  promptFeedback : Option PromptFeedback
  candidates : Option (List Candidate)
  text : Option String
  deriving DecidableEq, Repr

/-- The typed failures `handleApiResponse` can throw; each carries the
data interpolated into the thrown error message. -/
inductive ApiError where
  | blocked (blockReason : String) (blockReasonMessage : Option String)
  | generationStopped (finishReason : String)
  | noImage (context : String) (textFeedback : String)
  deriving DecidableEq, Repr

/-- Source: `response.candidates?.[0]?.content?.parts?.find(part => part.inlineData)`. -/
def findImagePart (response : GenerateContentResponse) : Option ResponsePart :=
  ((((response.candidates.bind List.head?).bind Candidate.content).bind
      ContentData.parts).bind
    (List.find? fun p => p.inlineData.isSome))

/-- Source: `response.candidates?.[0]?.finishReason`. -/
def candidateFinishReason (response : GenerateContentResponse) : Option String :=
  (response.candidates.bind List.head?).bind Candidate.finishReason

/-- Steps 2-4 of `handleApiResponse`: image part, finish reason, generic
no-output failure (with the `response.text` feedback, empty when the
getter is unavailable). -/
def handleApiResponseNoBlock (response : GenerateContentResponse) (context : String) :
    Except ApiError String :=
  match (findImagePart response).bind ResponsePart.inlineData with
  | some d => Except.ok ("data:" ++ d.mimeType ++ ";base64," ++ d.data)
  | none =>
    match candidateFinishReason response with
    | some finishReason =>
      if finishReason ≠ "" ∧ finishReason ≠ "STOP" then
        Except.error (ApiError.generationStopped finishReason)
      else
        Except.error (ApiError.noImage context (response.text.getD ""))
    | none => Except.error (ApiError.noImage context (response.text.getD ""))

/-- The response interpreter: block reason first, then image part, then
finish reason, then the generic no-output failure. -/
def handleApiResponse (response : GenerateContentResponse) (context : String) :
    Except ApiError String :=
  match response.promptFeedback with
  | some pf =>
    match pf.blockReason with
    | some blockReason =>
      if blockReason = "" then handleApiResponseNoBlock response context
      else Except.error (ApiError.blocked blockReason pf.blockReasonMessage)
    | none => handleApiResponseNoBlock response context
  | none => handleApiResponseNoBlock response context

/-- The human-readable message each thrown `Error` carries in the source. -/
def apiErrorMessage : ApiError → String
  | ApiError.blocked blockReason blockReasonMessage =>
    "Request was blocked by safety filters (Prompt). Reason: " ++ blockReason ++ ". " ++
      jsOrElse blockReasonMessage "Try using a less specific prompt or a broader focus."
  | ApiError.generationStopped finishReason =>
    "Generation stopped by model safety system (FinishReason: " ++ finishReason ++
      "). This often happens when focusing on specific human features at high zoom levels. " ++
      "Technical Mitigation: Try a slightly different zoom level or frame the request as a " ++
      "\"Macro Detail Study\"."
  | ApiError.noImage context textFeedback =>
    "No image output detected for " ++ context ++ ". " ++
      (if textFeedback.trim ≠ "" then "AI Feedback: \"" ++ textFeedback.trim ++ "\""
       else "The system blocked the output for safety or complexity reasons.")

/-- True exactly when the source's first check
`if (response.promptFeedback?.blockReason)` takes the throwing branch. -/
def hasBlockReason (response : GenerateContentResponse) : Bool :=
  match response.promptFeedback with
  | some pf => jsTruthyStr pf.blockReason
  | none => false

/-! ## Data-URL decode routines

The mime prefix is extracted with the regular expression `:(.*?);` — a
lazy dot (which does not cross JavaScript line terminators) between the
first colon that is followed by a semicolon and that semicolon. -/

/-- Characters the JavaScript regex `.` does not match. -/
def isJsLineTerminator (c : Char) : Bool :=
  c = '\n' || c = '\r' || c = '\u2028' || c = '\u2029'

/-- Lazy `(.*?);` after a candidate colon: the characters up to the first
semicolon, failing at end of input or at a line terminator. -/
def lazyCaptureToSemi : List Char → Option (List Char)
  | [] => none
  | c :: rest =>
    if c = ';' then some []
    else if isJsLineTerminator c then none
    else (lazyCaptureToSemi rest).map (fun cs => c :: cs)

/-- First match of `:(.*?);` over a character list: scan for a colon from
which a lazy capture succeeds; on failure resume at the next position. -/
def matchMimeAux : List Char → Option (List Char)
  | [] => none
  | c :: rest =>
    if c = ':' then
      match lazyCaptureToSemi rest with
      | some cap => some cap
      | none => matchMimeAux rest
    else matchMimeAux rest

/-- Capture group of `s.match(/:(.*?);/)`, or `none` when there is no match. -/
def matchMime (s : String) : Option String :=
  (matchMimeAux s.data).map (fun cs => String.mk cs)

/-- JavaScript `s.split(',')` at the character level: split at every
comma; no commas yields the one-element list, and `''` splits to `['']`. -/
def splitCommaChars : List Char → List (List Char)
  | [] => [[]]
  | c :: rest =>
    if c = ',' then [] :: splitCommaChars rest
    else
      match splitCommaChars rest with
      | [] => [[c]]
      | g :: gs => (c :: g) :: gs

/-- JavaScript `s.split(',')`. -/
def jsSplitComma (s : String) : List String :=
  (splitCommaChars s.data).map (fun cs => String.mk cs)

/-- ASCII whitespace stripped by the browser's forgiving-base64 decoder. -/
def isAsciiWhitespace (c : Char) : Bool :=
  c = ' ' || c = '\t' || c = '\n' || c = '\x0c' || c = '\r'

/-- Value of one base64 alphabet character. -/
def base64Val (c : Char) : Option ℕ :=
  if 'A' ≤ c ∧ c ≤ 'Z' then some (c.toNat - 'A'.toNat)
  else if 'a' ≤ c ∧ c ≤ 'z' then some (c.toNat - 'a'.toNat + 26)
  else if '0' ≤ c ∧ c ≤ '9' then some (c.toNat - '0'.toNat + 52)
  else if c = '+' then some 62
  else if c = '/' then some 63
  else none

/-- Strip up to two trailing padding characters when the length is a
multiple of four (forgiving-base64, step 2). -/
def stripBase64Pad (l : List Char) : List Char :=
  if l.length % 4 = 0 then
    match l.reverse with
    | '=' :: '=' :: rest => rest.reverse
    | '=' :: rest => rest.reverse
    | _ => l
  else l

/-- Reassemble 6-bit values into bytes (4 sextets to 3 bytes; a final pair
yields one byte and a final triple two). -/
def sextetsToBytes : List ℕ → List ℕ
  | a :: b :: c :: d :: rest =>
    (a * 4 + b / 16) :: ((b % 16) * 16 + c / 4) :: ((c % 4) * 64 + d) :: sextetsToBytes rest
  | [a, b] => [a * 4 + b / 16]
  | [a, b, c] => [a * 4 + b / 16, (b % 16) * 16 + c / 4]
  | _ => []

/-- Model of the browser's `atob` primitive (an external collaborator of
this codebase): the forgiving-base64 decode, throwing
`InvalidCharacterError` on malformed input. -/
def jsAtob (s : String) : Except String (List ℕ) :=
  let trimmed := s.data.filter (fun c => !isAsciiWhitespace c)
  let body := stripBase64Pad trimmed
  if body.length % 4 = 1 then Except.error "InvalidCharacterError"
  else
    match body.mapM base64Val with
    | some vals => Except.ok (sextetsToBytes vals)
    | none => Except.error "InvalidCharacterError"

/-- A browser `File`: name, declared mime type (the `type` option of the
`File` constructor) and content bytes. -/
structure File where
  name : String
  fileType : String
  bytes : List ℕ
  deriving DecidableEq, Repr

/-- The app's helper converting a data-URL string to a `File`; the two
guarded throws are the distinct malformed-encoding failures. -/
def dataURLtoFile (dataurl : String) (filename : String) : Except String File :=
  let arr := jsSplitComma dataurl
  if arr.length < 2 then Except.error "Invalid data URL"
  else
    match matchMime arr.headI with
    | none => Except.error "Could not parse MIME type from data URL"
    | some "" => Except.error "Could not parse MIME type from data URL"
    | some mime =>
      match jsAtob (arr.getD 1 "") with
      | Except.error e => Except.error e
      | Except.ok bytes => Except.ok { name := filename, fileType := mime, bytes := bytes }

/-- The service helper converting a file's data URL (produced by the
browser's `FileReader`, an external primitive) to an inline-data part;
same guarded throws, but the base64 payload is kept encoded. -/
def fileToPart (dataUrl : String) : Except String InlineData :=
  let arr := jsSplitComma dataUrl
  if arr.length < 2 then Except.error "Invalid data URL"
  else
    match matchMime arr.headI with
    | none => Except.error "Could not parse MIME type from data URL"
    | some "" => Except.error "Could not parse MIME type from data URL"
    | some mimeType => Except.ok { mimeType := mimeType, data := arr.getD 1 "" }

/-! ## App component state

The `useState` hooks of the App component, collected into one record.
Display-space click offsets are rationals; image-pixel coordinates are
produced by `Math.round` and stored as (integer-valued) rationals. -/

/-- A coordinate pair, as stored in the hotspot states. -/
structure HPoint where
  x : ℚ
  y : ℚ
  deriving DecidableEq, Repr

/-- A `react-image-crop` pixel crop rectangle. -/
structure PixelCrop where
  x : ℚ
  y : ℚ
  width : ℚ
  height : ℚ
  deriving DecidableEq, Repr

/-- The mutually exclusive edit modes. -/
inductive Tab where
  | retouch | integrate | combine | adjust | reframe
  | enhance | filters | crop | expand | zoom
  deriving DecidableEq, Repr

structure AppState where
  history : List File
  historyIndex : ℤ
  prompt : String
  isLoading : Bool
  error : Option String
  activeTab : Tab
  editHotspot : Option HPoint
  displayHotspot : Option HPoint
  foregroundHotspot : Option HPoint
  backgroundHotspot : Option HPoint
  displayForegroundHotspot : Option HPoint
  displayBackgroundHotspot : Option HPoint
  crop : Option PixelCrop
  completedCrop : Option PixelCrop
  enhanceCrop : Option PixelCrop
  completedEnhanceCrop : Option PixelCrop
  deriving DecidableEq, Repr

/-- The initial values of the `useState` hooks. -/
def initialState : AppState where
  history := []
  historyIndex := -1
  prompt := ""
  isLoading := false
  error := none
  activeTab := Tab.retouch
  editHotspot := none
  displayHotspot := none
  foregroundHotspot := none
  backgroundHotspot := none
  displayForegroundHotspot := none
  displayBackgroundHotspot := none
  crop := none
  completedCrop := none
  enhanceCrop := none
  completedEnhanceCrop := none

/-- Source: `const currentImage = history[historyIndex] ?? null`. -/
def currentImage (st : AppState) : Option File :=
  if st.historyIndex < 0 then none else st.history.get? st.historyIndex.toNat

/-- Source: `const originalImage = history[0] ?? null`. -/
def originalImage (st : AppState) : Option File :=
  st.history.get? 0

/-- Source: `const canUndo = historyIndex > 0`. -/
def canUndo (st : AppState) : Bool :=
  decide (0 < st.historyIndex)

/-- Source: `const canRedo = historyIndex < history.length - 1`. -/
def canRedo (st : AppState) : Bool :=
  decide (st.historyIndex < (st.history.length : ℤ) - 1)

/-- `clearInteractionPoints`: clears the six hotspot states and the
enhance crop (but not the crop-tab selection). -/
def clearInteractionPoints (st : AppState) : AppState :=
  { st with
    editHotspot := none
    displayHotspot := none
    foregroundHotspot := none
    backgroundHotspot := none
    displayForegroundHotspot := none
    displayBackgroundHotspot := none
    enhanceCrop := none
    completedEnhanceCrop := none }

/-- `addImageToHistory`: truncate past the cursor
(`history.slice(0, historyIndex + 1)`), append, move the cursor to the
new last index, and reset the transient interaction state. -/
def addImageToHistory (newImageFile : File) (st : AppState) : AppState :=
  let newHistory := jsSliceTo st.history (st.historyIndex + 1) ++ [newImageFile]
  { clearInteractionPoints st with
    history := newHistory
    historyIndex := (newHistory.length : ℤ) - 1
    crop := none
    completedCrop := none }

/-- `handleImageUpload`: a fresh single-entry history. -/
def handleImageUpload (file : File) (st : AppState) : AppState :=
  { clearInteractionPoints st with
    error := none
    history := [file]
    historyIndex := 0
    activeTab := Tab.retouch
    crop := none
    completedCrop := none }

/-- `handleUndo`: decrement the cursor when possible, else a no-op. -/
def handleUndo (st : AppState) : AppState :=
  if canUndo st then
    { clearInteractionPoints st with historyIndex := st.historyIndex - 1 }
  else st

/-- `handleRedo`: increment the cursor when possible, else a no-op. -/
def handleRedo (st : AppState) : AppState :=
  if canRedo st then
    { clearInteractionPoints st with historyIndex := st.historyIndex + 1 }
  else st

/-- `handleReset`: move the cursor back to the original upload without
touching the history itself. -/
def handleReset (st : AppState) : AppState :=
  if 0 < st.history.length then
    { clearInteractionPoints st with historyIndex := 0, error := none }
  else st

/-- `handleUploadNew`: drop everything back to the empty editor. -/
def handleUploadNew (st : AppState) : AppState :=
  { clearInteractionPoints st with
    history := []
    historyIndex := -1
    error := none
    prompt := "" }

/-- The history-affecting operations of the App component. -/
inductive HistOp where
  | upload (f : File)
  | append (f : File)
  | undo
  | redo
  | reset
  | uploadNew
  deriving DecidableEq, Repr

/-- One history operation as a state transition. -/
def histStep : HistOp → AppState → AppState
  | HistOp.upload f, st => handleImageUpload f st
  | HistOp.append f, st => addImageToHistory f st
  | HistOp.undo, st => handleUndo st
  | HistOp.redo, st => handleRedo st
  | HistOp.reset, st => handleReset st
  | HistOp.uploadNew, st => handleUploadNew st

/-- The history invariant: the cursor is `-1` on an empty history and a
valid index otherwise. -/
def histInv (st : AppState) : Prop :=
  (st.history = [] → st.historyIndex = -1) ∧
  (st.history ≠ [] → 0 ≤ st.historyIndex ∧ st.historyIndex < (st.history.length : ℤ))

instance (st : AppState) : Decidable (histInv st) := by
  unfold histInv; infer_instance

/-! ## Request handlers

Each `handleApply*` handler validates its preconditions, then (inside a
`try`/`catch`/`finally`) awaits one dispatch, converts the produced data
URL to a `File` and appends it to the history; any thrown failure only
sets the error state.  The awaited exchange is embedded as an explicit
`outcome` argument (the produced data URL, or the thrown message), `now`
stands for `Date.now()`, and the returned flag records whether the
dispatch phase was reached — validation failures return `false` before
any request is built. -/

/-- The shared `try`/`catch`/`finally` body of every handler: on success
convert and append, on failure set the error from the given prefix. -/
def dispatchPhase (st : AppState) (failText : String) (fname : String)
    (outcome : Except String String) : AppState :=
  match outcome with
  | Except.error msg => { st with error := some (failText ++ msg), isLoading := false }
  | Except.ok url =>
    match dataURLtoFile url fname with
    | Except.ok f => { addImageToHistory f st with error := none, isLoading := false }
    | Except.error e => { st with error := some (failText ++ e), isLoading := false }

/-- `handleGenerate` (retouch): requires an image, a non-empty prompt and
a selected hotspot. -/
def handleGenerate (st : AppState) (outcome : Except String String) (now : ℕ) :
    AppState × Bool :=
  if (currentImage st).isNone then
    ({ st with error := some "No image loaded to edit." }, false)
  else if st.prompt.trim = "" then
    ({ st with error := some "Please enter a description for your edit." }, false)
  else if st.editHotspot.isNone then
    ({ st with error := some "Please click on the image to select an area to edit." }, false)
  else
    (dispatchPhase st "Failed to generate the image. "
      ("edited-" ++ toString now ++ ".png") outcome, true)

/-- `handleApplyFilter`: requires an image. -/
def handleApplyFilter (st : AppState) (_filterText : String)
    (outcome : Except String String) (now : ℕ) : AppState × Bool :=
  if (currentImage st).isNone then
    ({ st with error := some "No image loaded to apply a filter to." }, false)
  else
    (dispatchPhase st "Failed to apply the filter. "
      ("filtered-" ++ toString now ++ ".png") outcome, true)

/-- `handleApplyAdjustment`: requires an image. -/
def handleApplyAdjustment (st : AppState) (_adjustmentText : String)
    (outcome : Except String String) (now : ℕ) : AppState × Bool :=
  if (currentImage st).isNone then
    ({ st with error := some "No image loaded to apply an adjustment to." }, false)
  else
    (dispatchPhase st "Failed to apply the adjustment. "
      ("adjusted-" ++ toString now ++ ".png") outcome, true)

/-- `handleApplyReframe`: requires an image. -/
def handleApplyReframe (st : AppState) (_cameraAngleText : String)
    (outcome : Except String String) (now : ℕ) : AppState × Bool :=
  if (currentImage st).isNone then
    ({ st with error := some "No image loaded to reframe." }, false)
  else
    (dispatchPhase st "Failed to reframe the image. "
      ("reframed-" ++ toString now ++ ".png") outcome, true)

/-- `handleApplyZoom`: requires an image. -/
def handleApplyZoom (st : AppState) (_zoomText : String)
    (outcome : Except String String) (now : ℕ) : AppState × Bool :=
  if (currentImage st).isNone then
    ({ st with error := some "No image loaded to apply zoom to." }, false)
  else
    (dispatchPhase st "Failed to apply zoom. "
      ("zoomed-" ++ toString now ++ ".png") outcome, true)

/-- `handleApplyEnhancement`: requires an image and a completed enhance
crop of non-zero width (`!completedEnhanceCrop || completedEnhanceCrop.width === 0`). -/
def handleApplyEnhancement (st : AppState) (_enhancementText : String)
    (outcome : Except String String) (now : ℕ) : AppState × Bool :=
  if (currentImage st).isNone then
    ({ st with error := some "No image loaded to apply an enhancement to." }, false)
  else
    match st.completedEnhanceCrop with
    | none => ({ st with error := some "Please select an area on the image to enhance." }, false)
    | some c =>
      if c.width = 0 then
        ({ st with error := some "Please select an area on the image to enhance." }, false)
      else
        (dispatchPhase st "Failed to apply the enhancement. "
          ("enhanced-" ++ toString now ++ ".png") outcome, true)

/-- `handleApplyExpansion`: requires an image; the whole `try` block
(image decode, canvas padding, dispatch) is summarised by `outcome`. -/
def handleApplyExpansion (st : AppState) (_targetAspect : ℚ) (_userText : String)
    (outcome : Except String String) (now : ℕ) : AppState × Bool :=
  if (currentImage st).isNone then
    ({ st with error := some "No image loaded to expand." }, false)
  else
    (dispatchPhase st "Failed to expand the image. "
      ("expanded-final-" ++ toString now ++ ".png") outcome, true)

/-- `handleApplyHarmonize` (integrate): requires an image and both the
foreground and the background point. -/
def handleApplyHarmonize (st : AppState) (_userText : String)
    (outcome : Except String String) (now : ℕ) : AppState × Bool :=
  if (currentImage st).isNone then
    ({ st with error := some "No image loaded to harmonize." }, false)
  else if st.foregroundHotspot.isNone || st.backgroundHotspot.isNone then
    ({ st with error := some "Please select a foreground object and a background point." }, false)
  else
    (dispatchPhase st "Failed to harmonize the image. "
      ("harmonized-" ++ toString now ++ ".png") outcome, true)

/-- `handleApplyCombine`: requires a destination image and an insertion
point; the second source image is a non-optional parameter supplied by
the panel. -/
def handleApplyCombine (st : AppState) (_sourceImage : File) (_userText : String)
    (outcome : Except String String) (now : ℕ) : AppState × Bool :=
  if (currentImage st).isNone then
    ({ st with error := some "No destination image loaded." }, false)
  else if st.editHotspot.isNone then
    ({ st with error := some "Please select a location on the destination image." }, false)
  else
    (dispatchPhase st "Failed to combine images. "
      ("combined-" ++ toString now ++ ".png") outcome, true)

/-- The dispatched edit operations, each with its panel-supplied inputs. -/
inductive EditOp where
  | generate
  | filter (p : String)
  | adjustment (p : String)
  | reframe (p : String)
  | zoom (p : String)
  | enhancement (p : String)
  | expansion (targetAspect : ℚ) (p : String)
  | harmonize (p : String)
  | combine (src : File) (p : String)

/-- Run one dispatched edit operation through its handler. -/
def runEditOp : EditOp → AppState → Except String String → ℕ → AppState × Bool
  | EditOp.generate, st, outcome, now => handleGenerate st outcome now
  | EditOp.filter p, st, outcome, now => handleApplyFilter st p outcome now
  | EditOp.adjustment p, st, outcome, now => handleApplyAdjustment st p outcome now
  | EditOp.reframe p, st, outcome, now => handleApplyReframe st p outcome now
  | EditOp.zoom p, st, outcome, now => handleApplyZoom st p outcome now
  | EditOp.enhancement p, st, outcome, now => handleApplyEnhancement st p outcome now
  | EditOp.expansion r p, st, outcome, now => handleApplyExpansion st r p outcome now
  | EditOp.harmonize p, st, outcome, now => handleApplyHarmonize st p outcome now
  | EditOp.combine src p, st, outcome, now => handleApplyCombine st src p outcome now

/-- The validation error shown when no current image exists, per operation. -/
def noImageMessage : EditOp → String
  | EditOp.generate => "No image loaded to edit."
  | EditOp.filter _ => "No image loaded to apply a filter to."
  | EditOp.adjustment _ => "No image loaded to apply an adjustment to."
  | EditOp.reframe _ => "No image loaded to reframe."
  | EditOp.zoom _ => "No image loaded to apply zoom to."
  | EditOp.enhancement _ => "No image loaded to apply an enhancement to."
  | EditOp.expansion _ _ => "No image loaded to expand."
  | EditOp.harmonize _ => "No image loaded to harmonize."
  | EditOp.combine _ _ => "No destination image loaded."

/-- The catch-clause message each operation wraps a thrown message in. -/
def failMessage : EditOp → String
  | EditOp.generate => "Failed to generate the image. "
  | EditOp.filter _ => "Failed to apply the filter. "
  | EditOp.adjustment _ => "Failed to apply the adjustment. "
  | EditOp.reframe _ => "Failed to reframe the image. "
  | EditOp.zoom _ => "Failed to apply zoom. "
  | EditOp.enhancement _ => "Failed to apply the enhancement. "
  | EditOp.expansion _ _ => "Failed to expand the image. "
  | EditOp.harmonize _ => "Failed to harmonize the image. "
  | EditOp.combine _ _ => "Failed to combine images. "

/-- The CombinePanel's gate on its generate button:
`!isLoading && sourceImage && insertionHotspot && !!prompt.trim()`. -/
def combineCanGenerate (busy : Bool) (sourceImage : Option File)
    (insertionHotspot : Option HPoint) (p : String) : Bool :=
  !busy && sourceImage.isSome && insertionHotspot.isSome && decide (p.trim ≠ "")

/-- `handleImageClick`: translate the display-space click into image-pixel
coordinates and record it according to the active tab.  In integrate
mode a click starts a fresh foreground selection unless exactly the
foreground is already chosen, in which case it supplies the background. -/
def handleImageClick (st : AppState) (offsetX offsetY : ℚ)
    (naturalWidth naturalHeight clientWidth clientHeight : ℚ) : AppState :=
  let scaleX := naturalWidth / clientWidth
  let scaleY := naturalHeight / clientHeight
  let originalX : ℤ := jsRound (offsetX * scaleX)
  let originalY : ℤ := jsRound (offsetY * scaleY)
  if st.activeTab = Tab.retouch ∨ st.activeTab = Tab.combine then
    { st with
      displayHotspot := some { x := offsetX, y := offsetY }
      editHotspot := some { x := (originalX : ℚ), y := (originalY : ℚ) } }
  else if st.activeTab = Tab.integrate then
    if st.foregroundHotspot.isNone || (st.foregroundHotspot.isSome && st.backgroundHotspot.isSome) then
      { st with
        displayForegroundHotspot := some { x := offsetX, y := offsetY }
        foregroundHotspot := some { x := (originalX : ℚ), y := (originalY : ℚ) }
        displayBackgroundHotspot := none
        backgroundHotspot := none }
    else if st.backgroundHotspot.isNone then
      { st with
        displayBackgroundHotspot := some { x := offsetX, y := offsetY }
        backgroundHotspot := some { x := (originalX : ℚ), y := (originalY : ℚ) } }
    else st
  else st

/-! ## Expansion (outpainting) geometry

The pure canvas math inside `handleApplyExpansion`, between reading the
image's natural dimensions and drawing onto the model canvas. -/

/-- The maximum model input dimension (`MODEL_MAX_DIM`). -/
def MODEL_MAX_DIM : ℤ := 2048

/-- All values computed by the expansion preprocessor. -/
structure ExpansionGeometry where
  finalWidth : ℤ
  finalHeight : ℤ
  scaleFactor : ℚ
  modelCanvasWidth : ℤ
  modelCanvasHeight : ℤ
  scaledOriginalWidth : ℤ
  scaledOriginalHeight : ℤ
  dxModel : ℚ
  dyModel : ℚ
  deriving DecidableEq, Repr

/-- The geometry computation of `handleApplyExpansion`, statement by
statement, over exact rationals. -/
def computeExpansionGeometry (originalWidth originalHeight : ℕ) (targetAspect : ℚ) :
    ExpansionGeometry :=
  let originalAspect : ℚ := (originalWidth : ℚ) / (originalHeight : ℚ)
  let final : ℤ × ℤ :=
    if originalAspect > targetAspect then
      ((originalWidth : ℤ), jsRound ((originalWidth : ℚ) / targetAspect))
    else
      (jsRound ((originalHeight : ℚ) * targetAspect), (originalHeight : ℤ))
  let finalWidth := final.1
  let finalHeight := final.2
  let scaleFactor : ℚ :=
    if finalWidth > MODEL_MAX_DIM ∨ finalHeight > MODEL_MAX_DIM then
      if finalWidth > finalHeight then (MODEL_MAX_DIM : ℚ) / (finalWidth : ℚ)
      else (MODEL_MAX_DIM : ℚ) / (finalHeight : ℚ)
    else 1
  let modelCanvasWidth := jsRound ((finalWidth : ℚ) * scaleFactor)
  let modelCanvasHeight := jsRound ((finalHeight : ℚ) * scaleFactor)
  let scaledOriginalWidth := jsRound ((originalWidth : ℚ) * scaleFactor)
  let scaledOriginalHeight := jsRound ((originalHeight : ℚ) * scaleFactor)
  { finalWidth := finalWidth
    finalHeight := finalHeight
    scaleFactor := scaleFactor
    modelCanvasWidth := modelCanvasWidth
    modelCanvasHeight := modelCanvasHeight
    scaledOriginalWidth := scaledOriginalWidth
    scaledOriginalHeight := scaledOriginalHeight
    dxModel := ((modelCanvasWidth : ℚ) - (scaledOriginalWidth : ℚ)) / 2
    dyModel := ((modelCanvasHeight : ℚ) - (scaledOriginalHeight : ℚ)) / 2 }

/-! ## Invariants under scrutiny and concrete fixtures -/

/-- In integrate mode, a background point may only exist once a
foreground point does. -/
def hotspotInv (st : AppState) : Prop :=
  st.backgroundHotspot.isSome = true → st.foregroundHotspot.isSome = true

/-- Concrete image versions for the history scenarios. -/
def fA : File := { name := "a.png", fileType := "image/png", bytes := [] }

def fB : File := { name := "b.png", fileType := "image/png", bytes := [] }

def fC : File := { name := "c.png", fileType := "image/png", bytes := [] }

def fD : File := { name := "d.png", fileType := "image/png", bytes := [] }

/-- The state reached by uploading A and generating B and then C:
history `[A, B, C]`, cursor `2`. -/
def stABC : AppState :=
  histStep (HistOp.append fC) (histStep (HistOp.append fB)
    (histStep (HistOp.upload fA) initialState))

/-- A state ready to dispatch a retouch: one image, a prompt, a hotspot. -/
def stReady : AppState :=
  { handleImageUpload fA initialState with
    prompt := "make the shirt red"
    editHotspot := some { x := 12, y := 34 } }

/-- A ready state whose enhance selection collapsed to zero width. -/
def stDegenerate : AppState :=
  { handleImageUpload fA initialState with
    completedEnhanceCrop := some { x := 10, y := 10, width := 0, height := 7 } }

/-- A fresh state sitting on the integrate tab. -/
def stIntegrate : AppState :=
  { handleImageUpload fA initialState with activeTab := Tab.integrate }

/-- A response that carries both a block reason and an embedded image. -/
def respBlockedWithImage : GenerateContentResponse :=
  { promptFeedback := some { blockReason := some "SAFETY", blockReasonMessage := none }
    candidates := some [{
      content := some { parts := some [{
        inlineData := some { mimeType := "image/png", data := "QUJD" }
        text := none }] }
      finishReason := some "STOP" }]
    text := none }

/-! ## Helper lemmas -/

theorem jsSliceTo_of_nonneg {α : Type} (l : List α) (stop : ℤ) (h : 0 ≤ stop) :
    jsSliceTo l stop = l.take stop.toNat := by
  simp only [jsSliceTo, if_neg (not_lt.mpr h)]
  rcases le_total stop (l.length : ℤ) with hle | hle
  · rw [min_eq_left hle]
  · rw [min_eq_right hle, Int.toNat_natCast, List.take_length,
      List.take_of_length_le (by omega : l.length ≤ stop.toNat)]

theorem dispatchPhase_error (st : AppState) (failText fname msg : String) :
    dispatchPhase st failText fname (Except.error msg) =
      { st with error := some (failText ++ msg), isLoading := false } := rfl

theorem jsRound_intCast (n : ℤ) : jsRound ((n : ℚ)) = n := by
  unfold jsRound
  rw [Int.floor_int_add]
  norm_num

theorem jsRound_le_jsRound {a b : ℚ} (hab : a ≤ b) : jsRound a ≤ jsRound b :=
  Int.floor_le_floor (by linarith)

theorem le_jsRound_of_le {n : ℤ} {q : ℚ} (hq : (n : ℚ) ≤ q) : n ≤ jsRound q := by
  unfold jsRound
  exact Int.le_floor.mpr (by linarith)

theorem ceg_final_of_gt (w h : ℕ) (r : ℚ) (hgt : (w : ℚ) / (h : ℚ) > r) :
    (computeExpansionGeometry w h r).finalWidth = (w : ℤ) ∧
    (computeExpansionGeometry w h r).finalHeight = jsRound ((w : ℚ) / r) := by
  simp only [computeExpansionGeometry]
  rw [if_pos hgt]
  exact ⟨rfl, rfl⟩

theorem ceg_final_of_le (w h : ℕ) (r : ℚ) (hle : ¬ (w : ℚ) / (h : ℚ) > r) :
    (computeExpansionGeometry w h r).finalWidth = jsRound ((h : ℚ) * r) ∧
    (computeExpansionGeometry w h r).finalHeight = (h : ℤ) := by
  simp only [computeExpansionGeometry]
  rw [if_neg hle]
  exact ⟨rfl, rfl⟩

theorem ceg_scaleFactor (w h : ℕ) (r : ℚ) :
    (computeExpansionGeometry w h r).scaleFactor =
      (if (computeExpansionGeometry w h r).finalWidth > MODEL_MAX_DIM ∨
          (computeExpansionGeometry w h r).finalHeight > MODEL_MAX_DIM then
        if (computeExpansionGeometry w h r).finalWidth >
            (computeExpansionGeometry w h r).finalHeight then
          (MODEL_MAX_DIM : ℚ) / ((computeExpansionGeometry w h r).finalWidth : ℚ)
        else (MODEL_MAX_DIM : ℚ) / ((computeExpansionGeometry w h r).finalHeight : ℚ)
      else 1) := rfl

theorem ceg_modelCanvasWidth (w h : ℕ) (r : ℚ) :
    (computeExpansionGeometry w h r).modelCanvasWidth =
      jsRound (((computeExpansionGeometry w h r).finalWidth : ℚ) *
        (computeExpansionGeometry w h r).scaleFactor) := rfl

theorem ceg_modelCanvasHeight (w h : ℕ) (r : ℚ) :
    (computeExpansionGeometry w h r).modelCanvasHeight =
      jsRound (((computeExpansionGeometry w h r).finalHeight : ℚ) *
        (computeExpansionGeometry w h r).scaleFactor) := rfl

theorem ceg_scaledOriginalWidth (w h : ℕ) (r : ℚ) :
    (computeExpansionGeometry w h r).scaledOriginalWidth =
      jsRound ((w : ℚ) * (computeExpansionGeometry w h r).scaleFactor) := rfl

theorem ceg_scaledOriginalHeight (w h : ℕ) (r : ℚ) :
    (computeExpansionGeometry w h r).scaledOriginalHeight =
      jsRound ((h : ℚ) * (computeExpansionGeometry w h r).scaleFactor) := rfl

theorem ceg_dxModel (w h : ℕ) (r : ℚ) :
    (computeExpansionGeometry w h r).dxModel =
      (((computeExpansionGeometry w h r).modelCanvasWidth : ℚ) -
        ((computeExpansionGeometry w h r).scaledOriginalWidth : ℚ)) / 2 := rfl

theorem ceg_dyModel (w h : ℕ) (r : ℚ) :
    (computeExpansionGeometry w h r).dyModel =
      (((computeExpansionGeometry w h r).modelCanvasHeight : ℚ) -
        ((computeExpansionGeometry w h r).scaledOriginalHeight : ℚ)) / 2 := rfl

/-! ## Claim theorems -/

/-- C1: appending after an undo discards all versions past the cursor,
appends the new version and puts the cursor at the new last index; from
history `[A, B, C]` at cursor 2, `undo` then `append D` yields
`[A, B, D]` at cursor 2, with C unreachable. -/
theorem append_after_undo_truncates (st : AppState) (f : File)
    (hu : 0 < st.historyIndex) :
    (handleUndo st).historyIndex = st.historyIndex - 1 ∧
    (addImageToHistory f (handleUndo st)).history =
      st.history.take st.historyIndex.toNat ++ [f] ∧
    (addImageToHistory f (handleUndo st)).historyIndex =
      ((addImageToHistory f (handleUndo st)).history.length : ℤ) - 1 ∧
    ((handleUndo stABC).historyIndex = 1 ∧
      (addImageToHistory fD (handleUndo stABC)).history = [fA, fB, fD] ∧
      (addImageToHistory fD (handleUndo stABC)).historyIndex = 2 ∧
      fC ∉ (addImageToHistory fD (handleUndo stABC)).history) := by
  have hundo : handleUndo st =
      { clearInteractionPoints st with historyIndex := st.historyIndex - 1 } := by
    unfold handleUndo canUndo
    rw [if_pos (by simpa using hu)]
  refine ⟨by rw [hundo], ?_, ?_, by decide⟩
  · show (addImageToHistory f (handleUndo st)).history = _
    rw [hundo]
    unfold addImageToHistory
    have : st.historyIndex - 1 + 1 = st.historyIndex := by ring
    simp only [clearInteractionPoints, this]
    rw [jsSliceTo_of_nonneg _ _ (by omega)]
  · unfold addImageToHistory
    simp [clearInteractionPoints]

/-- C5: `reset` moves the cursor to 0 without truncating the history;
from `[A, B, C]` at cursor 2, `reset` yields cursor 0 with the history
intact, and two `redo` calls reach B and then C. -/
theorem reset_moves_cursor_without_truncating (st : AppState) :
    (handleReset st).history = st.history ∧
    (st.history ≠ [] → (handleReset st).historyIndex = 0) ∧
    ((handleReset stABC).history = [fA, fB, fC] ∧
      (handleReset stABC).historyIndex = 0 ∧
      (handleRedo (handleReset stABC)).historyIndex = 1 ∧
      currentImage (handleRedo (handleReset stABC)) = some fB ∧
      (handleRedo (handleRedo (handleReset stABC))).historyIndex = 2 ∧
      currentImage (handleRedo (handleRedo (handleReset stABC))) = some fC) := by
  refine ⟨?_, ?_, by decide⟩
  · unfold handleReset
    split <;> rfl
  · intro hne
    have hc : 0 < st.history.length := List.length_pos.mpr hne
    unfold handleReset
    rw [if_pos hc]

/-- C6: every history operation preserves the cursor invariant (a valid
index on a non-empty history, `-1` on an empty one); the current image is
the version at the cursor; and immediately after an append the cursor is
the last index, so redo is impossible. -/
theorem history_operations_preserve_invariant (st : AppState) (op : HistOp)
    (hinv : histInv st) :
    histInv (histStep op st) ∧
    (∀ f, op = HistOp.append f →
      (histStep op st).historyIndex = ((histStep op st).history.length : ℤ) - 1 ∧
      canRedo (histStep op st) = false) ∧
    (st.history ≠ [] →
      currentImage st = st.history.get? st.historyIndex.toNat ∧
      (currentImage st).isSome = true) := by
  obtain ⟨hempty, hbounds⟩ := hinv
  refine ⟨?_, ?_, ?_⟩
  · cases op with
    | upload f =>
      simp [histStep, handleImageUpload, clearInteractionPoints, histInv]
    | append f =>
      simp only [histStep, addImageToHistory, clearInteractionPoints, histInv,
        List.length_append, List.length_singleton]
      constructor
      · intro habs
        exact absurd habs (by simp)
      · intro _
        push_cast
        omega
    | undo =>
      by_cases hc : 0 < st.historyIndex
      · have hne : st.history ≠ [] := by
          intro habs; have := hempty habs; omega
        have hb := hbounds hne
        simp only [histStep, handleUndo, canUndo, decide_eq_true_eq, if_pos hc,
          clearInteractionPoints, histInv]
        exact ⟨fun habs => absurd habs hne, fun _ => by omega⟩
      · simpa [histStep, handleUndo, canUndo, hc, histInv] using ⟨hempty, hbounds⟩
    | redo =>
      by_cases hc : st.historyIndex < (st.history.length : ℤ) - 1
      · have hne : st.history ≠ [] := by
          intro habs
          have h0 := hempty habs
          rw [habs] at hc
          simp at hc
          omega
        have hb := hbounds hne
        simp only [histStep, handleRedo, canRedo, decide_eq_true_eq, if_pos hc,
          clearInteractionPoints, histInv]
        exact ⟨fun habs => absurd habs hne, fun _ => by omega⟩
      · simpa [histStep, handleRedo, canRedo, hc, histInv] using ⟨hempty, hbounds⟩
    | reset =>
      by_cases hc : 0 < st.history.length
      · have hne : st.history ≠ [] := by
          intro habs; rw [habs] at hc; simp at hc
        simp only [histStep, handleReset, if_pos hc, clearInteractionPoints, histInv]
        exact ⟨fun habs => absurd habs hne, fun _ => by omega⟩
      · simpa [histStep, handleReset, hc, histInv] using ⟨hempty, hbounds⟩
    | uploadNew =>
      simp [histStep, handleUploadNew, clearInteractionPoints, histInv]
  · rintro f rfl
    refine ⟨rfl, ?_⟩
    simp only [histStep, addImageToHistory, clearInteractionPoints, canRedo,
      decide_eq_false_iff_not]
    omega
  · intro hne
    have hb := hbounds hne
    have hidx : ¬ st.historyIndex < 0 := by omega
    have hlt : st.historyIndex.toNat < st.history.length := by omega
    refine ⟨?_, ?_⟩
    · unfold currentImage
      rw [if_neg hidx]
    · unfold currentImage
      rw [if_neg hidx, List.get?_eq_get hlt]
      rfl

/-- C1 witness: the invariant and undo-ability hold at the concrete
`[A, B, C]` state, where undo followed by append of D yields `[A, B, D]`
at cursor 2 and C is gone. -/
theorem append_after_undo_truncates_witness :
    0 < stABC.historyIndex ∧
    ((handleUndo stABC).historyIndex = 1 ∧
      (addImageToHistory fD (handleUndo stABC)).history = [fA, fB, fD] ∧
      (addImageToHistory fD (handleUndo stABC)).historyIndex = 2 ∧
      fC ∉ (addImageToHistory fD (handleUndo stABC)).history) :=
  ⟨by decide, (append_after_undo_truncates stABC fD (by decide)).2.2.2⟩

/-- C5 witness: at the concrete `[A, B, C]` state the history is
non-empty and `reset` indeed moves the cursor to 0. -/
theorem reset_moves_cursor_without_truncating_witness :
    stABC.history ≠ [] ∧ (handleReset stABC).historyIndex = 0 :=
  ⟨by decide, (reset_moves_cursor_without_truncating stABC).2.1 (by decide)⟩

/-- C6 witness: the invariant holds at `[A, B, C]` and is preserved by an
append, after which redo is impossible. -/
theorem history_operations_preserve_invariant_witness :
    histInv stABC ∧ histInv (histStep (HistOp.append fD) stABC) ∧
    canRedo (histStep (HistOp.append fD) stABC) = false :=
  ⟨by decide,
    (history_operations_preserve_invariant stABC (HistOp.append fD) (by decide)).1,
    ((history_operations_preserve_invariant stABC (HistOp.append fD) (by decide)).2.1
      fD rfl).2⟩

/-- C4: when a dispatched edit operation fails, the history and cursor
are unchanged — the current image is still the last successful version —
and only the error message (and the transient busy flag) is set. -/
theorem failed_dispatch_leaves_history_unchanged (op : EditOp) (st : AppState)
    (msg : String) (now : ℕ)
    (hdisp : (runEditOp op st (Except.error msg) now).2 = true) :
    (runEditOp op st (Except.error msg) now).1 =
      { st with error := some (failMessage op ++ msg), isLoading := false } ∧
    (runEditOp op st (Except.error msg) now).1.history = st.history ∧
    (runEditOp op st (Except.error msg) now).1.historyIndex = st.historyIndex ∧
    currentImage (runEditOp op st (Except.error msg) now).1 = currentImage st := by
  have hmain : (runEditOp op st (Except.error msg) now).1 =
      { st with error := some (failMessage op ++ msg), isLoading := false } := by
    cases op with
    | generate =>
      simp only [runEditOp, handleGenerate, failMessage] at hdisp ⊢
      split_ifs at hdisp ⊢ <;> simp_all [dispatchPhase_error]
    | filter p =>
      simp only [runEditOp, handleApplyFilter, failMessage] at hdisp ⊢
      split_ifs at hdisp ⊢ <;> simp_all [dispatchPhase_error]
    | adjustment p =>
      simp only [runEditOp, handleApplyAdjustment, failMessage] at hdisp ⊢
      split_ifs at hdisp ⊢ <;> simp_all [dispatchPhase_error]
    | reframe p =>
      simp only [runEditOp, handleApplyReframe, failMessage] at hdisp ⊢
      split_ifs at hdisp ⊢ <;> simp_all [dispatchPhase_error]
    | zoom p =>
      simp only [runEditOp, handleApplyZoom, failMessage] at hdisp ⊢
      split_ifs at hdisp ⊢ <;> simp_all [dispatchPhase_error]
    | enhancement p =>
      simp only [runEditOp, handleApplyEnhancement, failMessage] at hdisp ⊢
      by_cases h1 : (currentImage st).isNone
      · rw [if_pos h1] at hdisp
        simp at hdisp
      · rw [if_neg h1] at hdisp ⊢
        cases hc : st.completedEnhanceCrop with
        | none => rw [hc] at hdisp; simp at hdisp
        | some c =>
          rw [hc] at hdisp
          dsimp only at hdisp ⊢
          by_cases hw : c.width = 0
          · rw [if_pos hw] at hdisp; simp at hdisp
          · rw [if_neg hw]
            simp [dispatchPhase_error, hc]
    | expansion r p =>
      simp only [runEditOp, handleApplyExpansion, failMessage] at hdisp ⊢
      split_ifs at hdisp ⊢ <;> simp_all [dispatchPhase_error]
    | harmonize p =>
      simp only [runEditOp, handleApplyHarmonize, failMessage] at hdisp ⊢
      split_ifs at hdisp ⊢ <;> simp_all [dispatchPhase_error]
    | combine src p =>
      simp only [runEditOp, handleApplyCombine, failMessage] at hdisp ⊢
      split_ifs at hdisp ⊢ <;> simp_all [dispatchPhase_error]
  exact ⟨hmain, by rw [hmain], by rw [hmain], by rw [hmain]; rfl⟩

/-- C4 witness: on the ready state a filter dispatch is reached, and a
thrown failure leaves the single-entry history and its cursor in place. -/
theorem failed_dispatch_leaves_history_unchanged_witness :
    (runEditOp (EditOp.filter "sepia") stReady (Except.error "boom") 0).2 = true ∧
    (runEditOp (EditOp.filter "sepia") stReady (Except.error "boom") 0).1.history =
      stReady.history ∧
    (runEditOp (EditOp.filter "sepia") stReady (Except.error "boom") 0).1.historyIndex =
      stReady.historyIndex :=
  ⟨by decide,
    (failed_dispatch_leaves_history_unchanged (EditOp.filter "sepia") stReady "boom" 0
      (by decide)).2.1,
    (failed_dispatch_leaves_history_unchanged (EditOp.filter "sepia") stReady "boom" 0
      (by decide)).2.2.1⟩

/-- C7: every edit operation validates its preconditions before any
dispatch: with no current image it fails with that operation's
no-image-loaded error, and with the operation-specific input absent it
fails with the matching missing-input error; in both cases the returned
flag shows that no request was built (the combine panel additionally
disables its button while the second source image is absent). -/
theorem validation_precedes_dispatch (st : AppState) (outcome : Except String String)
    (now : ℕ) :
    (∀ op : EditOp, currentImage st = none →
      runEditOp op st outcome now = ({ st with error := some (noImageMessage op) }, false)) ∧
    (currentImage st ≠ none →
      (st.prompt.trim = "" →
        runEditOp EditOp.generate st outcome now =
          ({ st with error := some "Please enter a description for your edit." }, false)) ∧
      (st.prompt.trim ≠ "" → st.editHotspot = none →
        runEditOp EditOp.generate st outcome now =
          ({ st with
              error := some "Please click on the image to select an area to edit." }, false)) ∧
      (∀ p, st.foregroundHotspot = none ∨ st.backgroundHotspot = none →
        runEditOp (EditOp.harmonize p) st outcome now =
          ({ st with
              error := some "Please select a foreground object and a background point." },
            false)) ∧
      (∀ p, st.completedEnhanceCrop = none ∨
          (∃ c, st.completedEnhanceCrop = some c ∧ c.width = 0) →
        runEditOp (EditOp.enhancement p) st outcome now =
          ({ st with error := some "Please select an area on the image to enhance." }, false)) ∧
      (∀ src p, st.editHotspot = none →
        runEditOp (EditOp.combine src p) st outcome now =
          ({ st with error := some "Please select a location on the destination image." },
            false))) ∧
    (∀ (busy : Bool) (hot : Option HPoint) (p : String),
      combineCanGenerate busy none hot p = false) := by
  refine ⟨?_, ?_, ?_⟩
  · intro op hnone
    have h1 : (currentImage st).isNone = true := by rw [hnone]; rfl
    cases op <;>
      simp [runEditOp, handleGenerate, handleApplyFilter, handleApplyAdjustment,
        handleApplyReframe, handleApplyZoom, handleApplyEnhancement, handleApplyExpansion,
        handleApplyHarmonize, handleApplyCombine, noImageMessage, h1]
  · intro hsome
    have h1 : (currentImage st).isNone = false := by
      cases hcur : currentImage st with
      | none => exact absurd hcur hsome
      | some f => rfl
    refine ⟨?_, ?_, ?_, ?_, ?_⟩
    · intro hp
      simp [runEditOp, handleGenerate, h1, hp]
    · intro hp hhot
      simp [runEditOp, handleGenerate, h1, hp, hhot]
    · intro p hpts
      have hb : st.foregroundHotspot.isNone || st.backgroundHotspot.isNone := by
        rcases hpts with hfg | hbg
        · simp [hfg]
        · simp [hbg]
      simp [runEditOp, handleApplyHarmonize, h1, hb]
    · intro p hcrop
      rcases hcrop with hcrop | ⟨c, hcrop, hw⟩
      · simp [runEditOp, handleApplyEnhancement, h1, hcrop]
      · simp [runEditOp, handleApplyEnhancement, h1, hcrop, hw]
    · intro src p hhot
      simp [runEditOp, handleApplyCombine, h1, hhot]
  · intro busy hot p
    simp [combineCanGenerate]

/-- C7 witness: with no image loaded, a retouch attempt fails with the
no-image error and makes no request. -/
theorem validation_precedes_dispatch_witness :
    currentImage initialState = none ∧
    runEditOp EditOp.generate initialState (Except.ok "data:image/png;base64,QUJD") 0 =
      ({ initialState with error := some "No image loaded to edit." }, false) :=
  ⟨rfl,
    (validation_precedes_dispatch initialState (Except.ok "data:image/png;base64,QUJD") 0).1
      EditOp.generate rfl⟩

/-- C10: the localized-enhancement operation rejects a degenerate
selection: an absent completed crop or one of width zero fails with the
missing-area error before any dispatch, zero width being treated exactly
like no selection. -/
theorem enhancement_rejects_degenerate_selection (st : AppState) (p : String)
    (outcome : Except String String) (now : ℕ)
    (himg : currentImage st ≠ none)
    (hcrop : st.completedEnhanceCrop = none ∨
      (∃ c, st.completedEnhanceCrop = some c ∧ c.width = 0)) :
    handleApplyEnhancement st p outcome now =
      ({ st with error := some "Please select an area on the image to enhance." }, false) ∧
    (∀ c : PixelCrop, c.width = 0 →
      (handleApplyEnhancement { st with completedEnhanceCrop := some c } p outcome now).1.error =
        some "Please select an area on the image to enhance." ∧
      (handleApplyEnhancement { st with completedEnhanceCrop := some c } p outcome now).2 =
        false ∧
      (handleApplyEnhancement { st with completedEnhanceCrop := none } p outcome now).1.error =
        some "Please select an area on the image to enhance." ∧
      (handleApplyEnhancement { st with completedEnhanceCrop := none } p outcome now).2 =
        false) := by
  have h1 : (currentImage st).isNone = false := by
    cases hcur : currentImage st with
    | none => exact absurd hcur himg
    | some f => rfl
  constructor
  · rcases hcrop with hcrop | ⟨c, hcrop, hw⟩
    · simp [handleApplyEnhancement, h1, hcrop]
    · simp [handleApplyEnhancement, h1, hcrop, hw]
  · intro c hw
    have h2 : (currentImage { st with completedEnhanceCrop := some c }).isNone = false := h1
    have h3 : (currentImage { st with completedEnhanceCrop := none }).isNone = false := h1
    refine ⟨?_, ?_, ?_, ?_⟩ <;>
      simp [handleApplyEnhancement, h2, h3, hw]

/-- C10 witness: a zero-width completed enhance crop on a loaded image is
rejected with the missing-area message and no dispatch. -/
theorem enhancement_rejects_degenerate_selection_witness :
    handleApplyEnhancement stDegenerate "sharpen" (Except.ok "u") 0 =
      ({ stDegenerate with
          error := some "Please select an area on the image to enhance." }, false) :=
  (enhancement_rejects_degenerate_selection stDegenerate "sharpen" (Except.ok "u") 0
    (by decide)
    (Or.inr ⟨{ x := 10, y := 10, width := 0, height := 7 }, rfl, rfl⟩)).1

/-- C9: in integrate mode a click with no foreground point, or with both
points already set, records the clicked point as the new foreground and
clears the background; a click with only the foreground set supplies the
background; so after every click a background point can only exist
together with a foreground point. -/
theorem integrate_click_preserves_hotspot_invariant (st : AppState)
    (offsetX offsetY naturalWidth naturalHeight clientWidth clientHeight : ℚ)
    (hinv : hotspotInv st) :
    hotspotInv
      (handleImageClick st offsetX offsetY naturalWidth naturalHeight clientWidth
        clientHeight) ∧
    (st.activeTab = Tab.integrate →
      ((st.foregroundHotspot = none ∨
          (st.foregroundHotspot.isSome = true ∧ st.backgroundHotspot.isSome = true)) →
        (handleImageClick st offsetX offsetY naturalWidth naturalHeight clientWidth
            clientHeight).foregroundHotspot =
          some { x := ((jsRound (offsetX * (naturalWidth / clientWidth)) : ℤ) : ℚ),
                 y := ((jsRound (offsetY * (naturalHeight / clientHeight)) : ℤ) : ℚ) } ∧
        (handleImageClick st offsetX offsetY naturalWidth naturalHeight clientWidth
            clientHeight).backgroundHotspot = none) ∧
      (st.foregroundHotspot.isSome = true → st.backgroundHotspot = none →
        (handleImageClick st offsetX offsetY naturalWidth naturalHeight clientWidth
            clientHeight).backgroundHotspot =
          some { x := ((jsRound (offsetX * (naturalWidth / clientWidth)) : ℤ) : ℚ),
                 y := ((jsRound (offsetY * (naturalHeight / clientHeight)) : ℤ) : ℚ) } ∧
        (handleImageClick st offsetX offsetY naturalWidth naturalHeight clientWidth
            clientHeight).foregroundHotspot = st.foregroundHotspot)) := by
  by_cases hrt : st.activeTab = Tab.retouch ∨ st.activeTab = Tab.combine
  · have hni : st.activeTab ≠ Tab.integrate := by
      rcases hrt with h | h <;> rw [h] <;> intro habs <;> cases habs
    constructor
    · simp only [handleImageClick, if_pos hrt]
      exact hinv
    · intro habs
      exact absurd habs hni
  · by_cases hit : st.activeTab = Tab.integrate
    · by_cases hfresh : st.foregroundHotspot.isNone ||
        (st.foregroundHotspot.isSome && st.backgroundHotspot.isSome)
      · have hres : handleImageClick st offsetX offsetY naturalWidth naturalHeight
            clientWidth clientHeight =
            { st with
              displayForegroundHotspot := some { x := offsetX, y := offsetY }
              foregroundHotspot :=
                some { x := ((jsRound (offsetX * (naturalWidth / clientWidth)) : ℤ) : ℚ),
                       y := ((jsRound (offsetY * (naturalHeight / clientHeight)) : ℤ) : ℚ) }
              displayBackgroundHotspot := none
              backgroundHotspot := none } := by
          simp only [handleImageClick, if_neg hrt, if_pos hit, if_pos hfresh]
        constructor
        · rw [hres]
          intro habs
          simp at habs
        · intro _
          constructor
          · intro _
            rw [hres]
            exact ⟨rfl, rfl⟩
          · intro hfg hbg
            rw [Bool.or_eq_true] at hfresh
            rcases hfresh with hf | hf
            · rw [Option.isNone_iff_eq_none] at hf
              rw [hf] at hfg
              simp at hfg
            · rw [Bool.and_eq_true] at hf
              rw [hbg] at hf
              simp at hf
      · have hfg : st.foregroundHotspot.isSome = true := by
          rcases hfgs : st.foregroundHotspot with _ | f
          · rw [hfgs] at hfresh; simp at hfresh
          · rfl
        have hbgn : st.backgroundHotspot.isNone = true := by
          rcases hbgs : st.backgroundHotspot with _ | b
          · rfl
          · rw [hbgs] at hfresh
            rw [hfg] at hfresh
            simp at hfresh
        have hres : handleImageClick st offsetX offsetY naturalWidth naturalHeight
            clientWidth clientHeight =
            { st with
              displayBackgroundHotspot := some { x := offsetX, y := offsetY }
              backgroundHotspot :=
                some { x := ((jsRound (offsetX * (naturalWidth / clientWidth)) : ℤ) : ℚ),
                       y := ((jsRound (offsetY * (naturalHeight / clientHeight)) : ℤ) : ℚ) } } := by
          simp only [handleImageClick, if_neg hrt, if_pos hit, if_neg hfresh]
          rw [if_pos hbgn]
        constructor
        · rw [hres]
          intro _
          exact hfg
        · intro _
          constructor
          · intro hcase
            rcases hcase with hf | ⟨_, hb⟩
            · rw [hf] at hfg; simp at hfg
            · rw [Option.isNone_iff_eq_none.mp hbgn] at hb; simp at hb
          · intro _ _
            rw [hres]
            exact ⟨rfl, rfl⟩
    · constructor
      · simp only [handleImageClick, if_neg hrt, if_neg hit]
        exact hinv
      · intro habs
        exact absurd habs hit

/-- C9 witness: on a fresh integrate-tab state the invariant holds and a
click leaves the background hotspot cleared. -/
theorem integrate_click_preserves_hotspot_invariant_witness :
    hotspotInv stIntegrate ∧
    (handleImageClick stIntegrate 10 20 100 100 50 50).backgroundHotspot = none :=
  ⟨fun h => absurd h (by decide),
    (((integrate_click_preserves_hotspot_invariant stIntegrate 10 20 100 100 50 50
        (fun h => absurd h (by decide))).2 rfl).1 (Or.inl rfl)).2⟩

/-- C2: the response interpreter classifies in fixed priority order: a
(non-empty) block reason always wins — even when an inline image part is
present —, otherwise an inline image part yields the data-URL success,
otherwise a truthy finish reason other than STOP reports the generation
as stopped, and otherwise the no-image failure carries the text
feedback. -/
theorem response_classified_in_priority_order (response : GenerateContentResponse)
    (context : String) :
    (∀ pf blockReason, response.promptFeedback = some pf →
      pf.blockReason = some blockReason → blockReason ≠ "" →
      handleApiResponse response context =
        Except.error (ApiError.blocked blockReason pf.blockReasonMessage)) ∧
    (hasBlockReason response = false →
      ∀ d, (findImagePart response).bind ResponsePart.inlineData = some d →
        handleApiResponse response context =
          Except.ok ("data:" ++ d.mimeType ++ ";base64," ++ d.data)) ∧
    (hasBlockReason response = false →
      (findImagePart response).bind ResponsePart.inlineData = none →
      ∀ finishReason, candidateFinishReason response = some finishReason →
        finishReason ≠ "" → finishReason ≠ "STOP" →
        handleApiResponse response context =
          Except.error (ApiError.generationStopped finishReason)) ∧
    (hasBlockReason response = false →
      (findImagePart response).bind ResponsePart.inlineData = none →
      (candidateFinishReason response = none ∨
        candidateFinishReason response = some "STOP" ∨
        candidateFinishReason response = some "") →
      handleApiResponse response context =
        Except.error (ApiError.noImage context (response.text.getD ""))) := by
  have hnb : hasBlockReason response = false →
      handleApiResponse response context = handleApiResponseNoBlock response context := by
    intro h
    unfold hasBlockReason at h
    unfold handleApiResponse
    cases hpf : response.promptFeedback with
    | none => rfl
    | some pf =>
      rw [hpf] at h
      dsimp only at h ⊢
      cases hbr : pf.blockReason with
      | none => rfl
      | some br =>
        rw [hbr] at h
        dsimp only at h ⊢
        have hbr2 : br = "" := by simpa [jsTruthyStr] using h
        rw [if_pos hbr2]
  refine ⟨?_, ?_, ?_, ?_⟩
  · intro pf blockReason hpf hbr hne
    unfold handleApiResponse
    rw [hpf]
    dsimp only
    rw [hbr]
    dsimp only
    rw [if_neg hne]
  · intro hb d himg
    rw [hnb hb]
    unfold handleApiResponseNoBlock
    rw [himg]
  · intro hb himg finishReason hfr hne hns
    rw [hnb hb]
    unfold handleApiResponseNoBlock
    rw [himg]
    dsimp only
    rw [hfr]
    dsimp only
    rw [if_pos ⟨hne, hns⟩]
  · intro hb himg hfr
    rw [hnb hb]
    unfold handleApiResponseNoBlock
    rw [himg]
    dsimp only
    rcases hfr with h | h | h
    · rw [h]
    · rw [h]
      dsimp only
      rw [if_neg (by simp)]
    · rw [h]
      dsimp only
      rw [if_neg (by simp)]

/-- C2 witness: a response carrying both a block reason and an inline
image part classifies as blocked, not as success. -/
theorem response_classified_in_priority_order_witness :
    (findImagePart respBlockedWithImage).isSome = true ∧
    handleApiResponse respBlockedWithImage "edit" =
      Except.error (ApiError.blocked "SAFETY" none) :=
  ⟨by decide,
    (response_classified_in_priority_order respBlockedWithImage "edit").1
      { blockReason := some "SAFETY", blockReasonMessage := none } "SAFETY" rfl rfl
      (by decide)⟩

/-- C8: a malformed data URL — no comma-separated payload, or an
unparsable (or empty) mime prefix — makes both decode routines fail with
the corresponding guarded, reported error value, never an unguarded
fault: the routines are total and return exactly these errors on the two
malformation classes. -/
theorem malformed_data_url_rejected (s filename : String) :
    ((jsSplitComma s).length < 2 →
      dataURLtoFile s filename = Except.error "Invalid data URL" ∧
      fileToPart s = Except.error "Invalid data URL") ∧
    (2 ≤ (jsSplitComma s).length →
      (matchMime (jsSplitComma s).headI = none ∨ matchMime (jsSplitComma s).headI = some "") →
      dataURLtoFile s filename = Except.error "Could not parse MIME type from data URL" ∧
      fileToPart s = Except.error "Could not parse MIME type from data URL") := by
  constructor
  · intro h
    unfold dataURLtoFile fileToPart
    rw [if_pos h, if_pos h]
    exact ⟨rfl, rfl⟩
  · intro hlen hmime
    unfold dataURLtoFile fileToPart
    rw [if_neg (by omega), if_neg (by omega)]
    rcases hmime with h | h <;> rw [h] <;> exact ⟨rfl, rfl⟩

/-- C8 witness: a comma-less string and one with an unparsable mime
prefix are both rejected with the guarded errors. -/
theorem malformed_data_url_rejected_witness :
    ((jsSplitComma "not-a-data-url").length < 2 ∧
      dataURLtoFile "not-a-data-url" "f.png" = Except.error "Invalid data URL") ∧
    (2 ≤ ((jsSplitComma "dataimagepng,QUJD").length) ∧
      dataURLtoFile "dataimagepng,QUJD" "f.png" =
        Except.error "Could not parse MIME type from data URL") :=
  ⟨⟨by decide,
      ((malformed_data_url_rejected "not-a-data-url" "f.png").1 (by decide)).1⟩,
    ⟨by decide,
      ((malformed_data_url_rejected "dataimagepng,QUJD" "f.png").2 (by decide)
        (Or.inl (by decide))).1⟩⟩

/-- C3: the expansion preprocessor computes the minimal bounding canvas
holding the original unscaled (growing only the short dimension); when a
dimension exceeds the 2048 maximum, canvas and original are scaled by the
same factor and the longer canvas side becomes exactly 2048, otherwise
nothing is scaled; the original fits on the canvas and is centered; and
a 1000 by 500 image at target aspect 1 gives an unscaled 1000 by 1000
canvas with the original centered 250 pixels from top and bottom. -/
theorem expansion_geometry_correct (w h : ℕ) (r : ℚ) (g : ExpansionGeometry)
    (hw : 0 < w) (hh : 0 < h) (hr : 0 < r)
    (hg : g = computeExpansionGeometry w h r) :
    ((w : ℤ) ≤ g.finalWidth ∧ (h : ℤ) ≤ g.finalHeight ∧
      (g.finalWidth = (w : ℤ) ∨ g.finalHeight = (h : ℤ))) ∧
    (g.modelCanvasWidth = jsRound ((g.finalWidth : ℚ) * g.scaleFactor) ∧
      g.modelCanvasHeight = jsRound ((g.finalHeight : ℚ) * g.scaleFactor) ∧
      g.scaledOriginalWidth = jsRound ((w : ℚ) * g.scaleFactor) ∧
      g.scaledOriginalHeight = jsRound ((h : ℚ) * g.scaleFactor)) ∧
    (g.finalWidth > MODEL_MAX_DIM ∨ g.finalHeight > MODEL_MAX_DIM →
      max g.modelCanvasWidth g.modelCanvasHeight = MODEL_MAX_DIM) ∧
    (¬ (g.finalWidth > MODEL_MAX_DIM ∨ g.finalHeight > MODEL_MAX_DIM) →
      g.scaleFactor = 1 ∧ g.modelCanvasWidth = g.finalWidth ∧
      g.modelCanvasHeight = g.finalHeight ∧
      g.scaledOriginalWidth = (w : ℤ) ∧ g.scaledOriginalHeight = (h : ℤ)) ∧
    (g.scaledOriginalWidth ≤ g.modelCanvasWidth ∧
      g.scaledOriginalHeight ≤ g.modelCanvasHeight ∧
      2 * g.dxModel = (g.modelCanvasWidth : ℚ) - (g.scaledOriginalWidth : ℚ) ∧
      2 * g.dyModel = (g.modelCanvasHeight : ℚ) - (g.scaledOriginalHeight : ℚ) ∧
      0 ≤ g.dxModel ∧ 0 ≤ g.dyModel) ∧
    computeExpansionGeometry 1000 500 1 =
      { finalWidth := 1000, finalHeight := 1000, scaleFactor := 1,
        modelCanvasWidth := 1000, modelCanvasHeight := 1000,
        scaledOriginalWidth := 1000, scaledOriginalHeight := 500,
        dxModel := 0, dyModel := 250 } := by
  subst hg
  have hh0 : (0 : ℚ) < (h : ℚ) := by exact_mod_cast hh
  have hw0 : (0 : ℚ) < (w : ℚ) := by exact_mod_cast hw
  have hcont : (w : ℤ) ≤ (computeExpansionGeometry w h r).finalWidth ∧
      (h : ℤ) ≤ (computeExpansionGeometry w h r).finalHeight ∧
      ((computeExpansionGeometry w h r).finalWidth = (w : ℤ) ∨
        (computeExpansionGeometry w h r).finalHeight = (h : ℤ)) := by
    by_cases hA : (w : ℚ) / (h : ℚ) > r
    · obtain ⟨hfw, hfh⟩ := ceg_final_of_gt w h r hA
      refine ⟨le_of_eq hfw.symm, ?_, Or.inl hfw⟩
      rw [hfh]
      apply le_jsRound_of_le
      rw [le_div_iff hr]
      have h1 : r * (h : ℚ) < (w : ℚ) := (lt_div_iff hh0).mp hA
      push_cast
      linarith
    · obtain ⟨hfw, hfh⟩ := ceg_final_of_le w h r hA
      refine ⟨?_, le_of_eq hfh.symm, Or.inr hfh⟩
      rw [hfw]
      apply le_jsRound_of_le
      have h1 : (w : ℚ) ≤ r * (h : ℚ) := by
        rw [not_lt] at hA
        calc (w : ℚ) = ((w : ℚ) / (h : ℚ)) * (h : ℚ) := by
              field_simp
          _ ≤ r * (h : ℚ) := by
              apply mul_le_mul_of_nonneg_right hA (le_of_lt hh0)
      push_cast
      linarith
  have hfw0 : 0 < (computeExpansionGeometry w h r).finalWidth :=
    lt_of_lt_of_le (by exact_mod_cast hw) hcont.1
  have hfh0 : 0 < (computeExpansionGeometry w h r).finalHeight :=
    lt_of_lt_of_le (by exact_mod_cast hh) hcont.2.1
  have hM : (0 : ℚ) < ((MODEL_MAX_DIM : ℤ) : ℚ) := by unfold MODEL_MAX_DIM; norm_num
  have hs_pos : 0 < (computeExpansionGeometry w h r).scaleFactor := by
    rw [ceg_scaleFactor]
    split_ifs
    · exact div_pos hM (by exact_mod_cast hfw0)
    · exact div_pos hM (by exact_mod_cast hfh0)
    · norm_num
  refine ⟨hcont, ⟨ceg_modelCanvasWidth w h r, ceg_modelCanvasHeight w h r,
      ceg_scaledOriginalWidth w h r, ceg_scaledOriginalHeight w h r⟩, ?_, ?_, ?_, ?_⟩
  · intro hbig
    have hsf := ceg_scaleFactor w h r
    rw [if_pos hbig] at hsf
    by_cases hwh : (computeExpansionGeometry w h r).finalWidth >
        (computeExpansionGeometry w h r).finalHeight
    · rw [if_pos hwh] at hsf
      have hfwne : ((computeExpansionGeometry w h r).finalWidth : ℚ) ≠ 0 := by
        exact_mod_cast ne_of_gt hfw0
      have hcw : (computeExpansionGeometry w h r).modelCanvasWidth = MODEL_MAX_DIM := by
        rw [ceg_modelCanvasWidth, hsf, mul_comm, div_mul_cancel₀ _ hfwne,
          show ((MODEL_MAX_DIM : ℤ) : ℚ) = ((MODEL_MAX_DIM : ℤ) : ℚ) from rfl]
        exact_mod_cast jsRound_intCast MODEL_MAX_DIM
      have hch : (computeExpansionGeometry w h r).modelCanvasHeight ≤ MODEL_MAX_DIM := by
        rw [ceg_modelCanvasHeight, hsf]
        calc jsRound (((computeExpansionGeometry w h r).finalHeight : ℚ) *
              ((MODEL_MAX_DIM : ℚ) / ((computeExpansionGeometry w h r).finalWidth : ℚ)))
            ≤ jsRound (((computeExpansionGeometry w h r).finalWidth : ℚ) *
              ((MODEL_MAX_DIM : ℚ) / ((computeExpansionGeometry w h r).finalWidth : ℚ))) := by
              apply jsRound_le_jsRound
              apply mul_le_mul_of_nonneg_right
              · exact_mod_cast le_of_lt hwh
              · exact le_of_lt (div_pos hM (by exact_mod_cast hfw0))
          _ = MODEL_MAX_DIM := by
              rw [mul_comm, div_mul_cancel₀ _ hfwne]
              exact_mod_cast jsRound_intCast MODEL_MAX_DIM
      rw [hcw]
      exact max_eq_left hch
    · rw [if_neg hwh] at hsf
      rw [not_lt] at hwh
      have hfhne : ((computeExpansionGeometry w h r).finalHeight : ℚ) ≠ 0 := by
        exact_mod_cast ne_of_gt hfh0
      have hch : (computeExpansionGeometry w h r).modelCanvasHeight = MODEL_MAX_DIM := by
        rw [ceg_modelCanvasHeight, hsf, mul_comm, div_mul_cancel₀ _ hfhne]
        exact_mod_cast jsRound_intCast MODEL_MAX_DIM
      have hcw : (computeExpansionGeometry w h r).modelCanvasWidth ≤ MODEL_MAX_DIM := by
        rw [ceg_modelCanvasWidth, hsf]
        calc jsRound (((computeExpansionGeometry w h r).finalWidth : ℚ) *
              ((MODEL_MAX_DIM : ℚ) / ((computeExpansionGeometry w h r).finalHeight : ℚ)))
            ≤ jsRound (((computeExpansionGeometry w h r).finalHeight : ℚ) *
              ((MODEL_MAX_DIM : ℚ) / ((computeExpansionGeometry w h r).finalHeight : ℚ))) := by
              apply jsRound_le_jsRound
              apply mul_le_mul_of_nonneg_right
              · exact_mod_cast hwh
              · exact le_of_lt (div_pos hM (by exact_mod_cast hfh0))
          _ = MODEL_MAX_DIM := by
              rw [mul_comm, div_mul_cancel₀ _ hfhne]
              exact_mod_cast jsRound_intCast MODEL_MAX_DIM
      rw [hch]
      exact max_eq_right hcw
  · intro hsmall
    have hsf := ceg_scaleFactor w h r
    rw [if_neg hsmall] at hsf
    refine ⟨hsf, ?_, ?_, ?_, ?_⟩
    · rw [ceg_modelCanvasWidth, hsf, mul_one, jsRound_intCast]
    · rw [ceg_modelCanvasHeight, hsf, mul_one, jsRound_intCast]
    · rw [ceg_scaledOriginalWidth, hsf, mul_one,
        show ((w : ℚ)) = (((w : ℤ) : ℚ)) from by push_cast; ring, jsRound_intCast]
    · rw [ceg_scaledOriginalHeight, hsf, mul_one,
        show ((h : ℚ)) = (((h : ℤ) : ℚ)) from by push_cast; ring, jsRound_intCast]
  · have hsw : (computeExpansionGeometry w h r).scaledOriginalWidth ≤
        (computeExpansionGeometry w h r).modelCanvasWidth := by
      rw [ceg_scaledOriginalWidth, ceg_modelCanvasWidth]
      apply jsRound_le_jsRound
      apply mul_le_mul_of_nonneg_right _ (le_of_lt hs_pos)
      exact_mod_cast hcont.1
    have hsh : (computeExpansionGeometry w h r).scaledOriginalHeight ≤
        (computeExpansionGeometry w h r).modelCanvasHeight := by
      rw [ceg_scaledOriginalHeight, ceg_modelCanvasHeight]
      apply jsRound_le_jsRound
      apply mul_le_mul_of_nonneg_right _ (le_of_lt hs_pos)
      exact_mod_cast hcont.2.1
    refine ⟨hsw, hsh, by rw [ceg_dxModel]; ring, by rw [ceg_dyModel]; ring, ?_, ?_⟩
    · rw [ceg_dxModel]
      apply div_nonneg _ (by norm_num)
      rw [sub_nonneg]
      exact_mod_cast hsw
    · rw [ceg_dyModel]
      apply div_nonneg _ (by norm_num)
      rw [sub_nonneg]
      exact_mod_cast hsh
  · norm_num [computeExpansionGeometry, jsRound, MODEL_MAX_DIM]

/-- C3 witness: at the concrete 1000 by 500 image with target aspect 1
the hypotheses hold and the computed geometry is the unscaled centered
1000 by 1000 canvas with 250-pixel vertical margins. -/
theorem expansion_geometry_correct_witness :
    0 < (1000 : ℕ) ∧ 0 < (500 : ℕ) ∧ (0 : ℚ) < 1 ∧
    computeExpansionGeometry 1000 500 1 =
      { finalWidth := 1000, finalHeight := 1000, scaleFactor := 1,
        modelCanvasWidth := 1000, modelCanvasHeight := 1000,
        scaledOriginalWidth := 1000, scaledOriginalHeight := 500,
        dxModel := 0, dyModel := 250 } :=
  ⟨by norm_num, by norm_num, by norm_num,
    (expansion_geometry_correct 1000 500 1 (computeExpansionGeometry 1000 500 1)
      (by norm_num) (by norm_num) (by norm_num) rfl).2.2.2.2.2⟩

end PhotoEditor
